import Mathlib

/-!
Verification of the `hmi_app` repository's Modbus client layer against its
natural-language specification.

The embedding models `src/hmi_app/modbus/client.py` (class `ModbusClient`),
the tag definitions of `src/hmi_app/config/settings.py` (`DEFAULT_CONFIG`),
and the periodic update callbacks of `src/hmi_app/ui/main_page.py`
(`MainPage.update_values`) and `src/hmi_app/ui/manual_page.py`
(`ManualPage.update_values`).

The underlying third-party pymodbus library is the environment: each call
into it is parameterised by an oracle value (`ConnectOutcome` for
`client.connect()`, `TransportOutcome` for the read/write primitives) that
says how the library behaved on that call.  Every wrapper operation returns
its Python return value, the updated client state, and the trace of
externally visible events it performed (sleeps, connect attempts, transport
calls), in program order.  Python float arithmetic on the UI side is
modelled with exact rationals; the values involved (raw * 0.1 at one
displayed decimal, raw * 0.01 at two) round identically in IEEE doubles.
-/

namespace HmiApp

/-- Outcome of one call to the underlying pymodbus `client.connect()`:
it either returned a boolean or raised an exception. -/
inductive ConnectOutcome where
  | ok (b : Bool)
  | exn
deriving DecidableEq, Repr

/-- How the pymodbus `client.connect()` result is consumed by the wrapper:
a returned boolean is taken as-is, a raised exception counts as `false`
(`ModbusClient.connect`'s `except Exception` branch). -/
def ConnectOutcome.asBool : ConnectOutcome → Bool
  | .ok b => b
  | .exn => false

/-- Outcome of one pymodbus transport primitive
(`client.read_*` / `client.write_*`) whose successful response carries `α`:
a normal response, an error response (`result.isError()` true), a raised
`ConnectionException`, a raised `ModbusException`, or any other raised
exception. -/
inductive TransportOutcome (α : Type) where
  | ok (v : α)
  | errResponse
  | connLost
  | modbusErr
  | otherExn
deriving DecidableEq, Repr

/-- A transport outcome that the wrapper treats as a failure
(everything except a normal response). -/
def TransportOutcome.isFailure {α : Type} : TransportOutcome α → Bool
  | .ok _ => false
  | _ => true

/-- A value as passed at a Python call site.  Python does not enforce the
`bool` / `int` annotations on `write_coil` / `write_register`, so the
embedding keeps the written value dynamically typed. -/
inductive PyValue where
  | bool (b : Bool)
  | int (n : Int)
  | float (q : ℚ)
deriving DecidableEq, Repr

/-- One transport operation as issued to the pymodbus client, with its
arguments. -/
inductive TransportOp where
  | readCoils (address count : Nat)
  | readDiscreteInputs (address count : Nat)
  | readHoldingRegisters (address count : Nat)
  | readInputRegisters (address count : Nat)
  | writeCoil (address : Nat) (value : PyValue)
  | writeRegister (address : Nat) (value : PyValue)
  | writeRegisters (address : Nat) (values : List PyValue)
deriving DecidableEq, Repr

/-- An externally visible event performed by the wrapper, in program
order: a `time.sleep(seconds)`, a `self.client.connect()` call, or one
transport primitive call. -/
inductive Event where
  | sleep (seconds : Nat)
  | connectAttempt
  | transportCall (op : TransportOp)
deriving DecidableEq, Repr

/-- Whether an event is a call to a transport read/write primitive. -/
def Event.isTransportCall : Event → Bool
  | .transportCall _ => true
  | _ => false

/-- The mutable state of a `ModbusClient` instance: the constructor
parameters stored in `__init__` plus the `connected` flag.  The wrapped
`ModbusTcpClient` object itself carries no state the wrapper observes
beyond these. -/
structure ClientState where
  host : String
  port : Nat
  unit_id : Nat
  auto_reconnect : Bool
  reconnect_delay : Nat
  connected : Bool
deriving DecidableEq, Repr

/-- The code's connection state as the spec's `ConnectionState` names it.
The source tracks only the boolean `connected` flag, so the view below can
only ever produce two of the four values. -/
inductive ConnectionState where
  | Disconnected
  | Connecting
  | Connected
  | ReconnectWaiting
deriving DecidableEq, Repr

/-- The spec-level connection state exposed by a client state: `Connected`
when the `connected` flag is set, `Disconnected` otherwise. -/
def ClientState.connState (s : ClientState) : ConnectionState :=
  if s.connected then .Connected else .Disconnected

/-- `ModbusClient.connect`: calls `self.client.connect()`, stores the
result in `self.connected` and returns it; any raised exception is caught,
`self.connected` is set to `False` and `False` is returned. -/
def ModbusClient.connect (s : ClientState) (co : ConnectOutcome) :
    Bool × ClientState × List Event :=
  (co.asBool, { s with connected := co.asBool }, [Event.connectAttempt])

/-- `ModbusClient.disconnect`: closes the wrapped client and sets
`self.connected = False`; returns nothing. -/
def ModbusClient.disconnect (s : ClientState) : ClientState :=
  { s with connected := false }

/-- `ModbusClient.ensure_connected`: when not connected and
`auto_reconnect` is set, sleeps `reconnect_delay` seconds on the calling
thread and then makes one `connect` attempt, returning its result;
otherwise returns the current `connected` flag with no side effect. -/
def ModbusClient.ensure_connected (s : ClientState) (co : ConnectOutcome) :
    Bool × ClientState × List Event :=
  if !s.connected && s.auto_reconnect then
    let r := ModbusClient.connect s co
    (r.1, r.2.1, Event.sleep s.reconnect_delay :: r.2.2)
  else
    (s.connected, s, [])

/-- `ModbusClient.__init__`: stores the parameters, creates the wrapped
client with `connected = False`, then immediately calls `self.connect()`
(whose return value is discarded; it leaves its outcome in the
`connected` flag). -/
def ModbusClient.init (host : String) (port unit_id : Nat)
    (auto_reconnect : Bool) (reconnect_delay : Nat) (co : ConnectOutcome) :
    ClientState × List Event :=
  let s0 : ClientState :=
    { host := host, port := port, unit_id := unit_id,
      auto_reconnect := auto_reconnect, reconnect_delay := reconnect_delay,
      connected := false }
  let r := ModbusClient.connect s0 co
  (r.2.1, r.2.2)

/-- `ModbusClient.read_coils`: `ensure_connected`, then
`client.read_coils(address, count=count, slave=unit_id)`; an error
response, `ModbusException` or other exception yields `None`; a
`ConnectionException` also clears the `connected` flag; on success the
first `count` bits (`result.bits[:count]`) are returned. -/
def ModbusClient.read_coils (s : ClientState) (co : ConnectOutcome)
    (address count : Nat) (t : TransportOutcome (List Bool)) :
    Option (List Bool) × ClientState × List Event :=
  let e := ModbusClient.ensure_connected s co
  if !e.1 then (none, e.2.1, e.2.2)
  else
    let ev := e.2.2 ++ [Event.transportCall (.readCoils address count)]
    match t with
    | .ok v => (some (v.take count), e.2.1, ev)
    | .errResponse => (none, e.2.1, ev)
    | .connLost => (none, { e.2.1 with connected := false }, ev)
    | .modbusErr => (none, e.2.1, ev)
    | .otherExn => (none, e.2.1, ev)

/-- `ModbusClient.read_discrete_inputs`: same shape as `read_coils` with
the `read_discrete_inputs` primitive. -/
def ModbusClient.read_discrete_inputs (s : ClientState) (co : ConnectOutcome)
    (address count : Nat) (t : TransportOutcome (List Bool)) :
    Option (List Bool) × ClientState × List Event :=
  let e := ModbusClient.ensure_connected s co
  if !e.1 then (none, e.2.1, e.2.2)
  else
    let ev := e.2.2 ++ [Event.transportCall (.readDiscreteInputs address count)]
    match t with
    | .ok v => (some (v.take count), e.2.1, ev)
    | .errResponse => (none, e.2.1, ev)
    | .connLost => (none, { e.2.1 with connected := false }, ev)
    | .modbusErr => (none, e.2.1, ev)
    | .otherExn => (none, e.2.1, ev)

/-- `ModbusClient.read_holding_registers`: `ensure_connected`, then
`client.read_holding_registers(address, count=count, slave=unit_id)`;
failures map to `None` as in `read_coils` (a `ConnectionException` also
clears the flag); on success `result.registers` is returned whole. -/
def ModbusClient.read_holding_registers (s : ClientState) (co : ConnectOutcome)
    (address count : Nat) (t : TransportOutcome (List Nat)) :
    Option (List Nat) × ClientState × List Event :=
  let e := ModbusClient.ensure_connected s co
  if !e.1 then (none, e.2.1, e.2.2)
  else
    let ev := e.2.2 ++ [Event.transportCall (.readHoldingRegisters address count)]
    match t with
    | .ok v => (some v, e.2.1, ev)
    | .errResponse => (none, e.2.1, ev)
    | .connLost => (none, { e.2.1 with connected := false }, ev)
    | .modbusErr => (none, e.2.1, ev)
    | .otherExn => (none, e.2.1, ev)

/-- `ModbusClient.read_input_registers`: same shape as
`read_holding_registers` with the `read_input_registers` primitive. -/
def ModbusClient.read_input_registers (s : ClientState) (co : ConnectOutcome)
    (address count : Nat) (t : TransportOutcome (List Nat)) :
    Option (List Nat) × ClientState × List Event :=
  let e := ModbusClient.ensure_connected s co
  if !e.1 then (none, e.2.1, e.2.2)
  else
    let ev := e.2.2 ++ [Event.transportCall (.readInputRegisters address count)]
    match t with
    | .ok v => (some v, e.2.1, ev)
    | .errResponse => (none, e.2.1, ev)
    | .connLost => (none, { e.2.1 with connected := false }, ev)
    | .modbusErr => (none, e.2.1, ev)
    | .otherExn => (none, e.2.1, ev)

/-- `ModbusClient.write_coil`: `ensure_connected`, then
`client.write_coil(address, value=value, slave=unit_id)` with the given
value forwarded unvalidated; an error response or any exception yields
`False` (a `ConnectionException` also clears the `connected` flag);
success yields `True`. -/
def ModbusClient.write_coil (s : ClientState) (co : ConnectOutcome)
    (address : Nat) (value : PyValue) (t : TransportOutcome Unit) :
    Bool × ClientState × List Event :=
  let e := ModbusClient.ensure_connected s co
  if !e.1 then (false, e.2.1, e.2.2)
  else
    let ev := e.2.2 ++ [Event.transportCall (.writeCoil address value)]
    match t with
    | .ok _ => (true, e.2.1, ev)
    | .errResponse => (false, e.2.1, ev)
    | .connLost => (false, { e.2.1 with connected := false }, ev)
    | .modbusErr => (false, e.2.1, ev)
    | .otherExn => (false, e.2.1, ev)

/-- `ModbusClient.write_register`: same shape as `write_coil` with the
`write_register` primitive; the value is forwarded unvalidated. -/
def ModbusClient.write_register (s : ClientState) (co : ConnectOutcome)
    (address : Nat) (value : PyValue) (t : TransportOutcome Unit) :
    Bool × ClientState × List Event :=
  let e := ModbusClient.ensure_connected s co
  if !e.1 then (false, e.2.1, e.2.2)
  else
    let ev := e.2.2 ++ [Event.transportCall (.writeRegister address value)]
    match t with
    | .ok _ => (true, e.2.1, ev)
    | .errResponse => (false, e.2.1, ev)
    | .connLost => (false, { e.2.1 with connected := false }, ev)
    | .modbusErr => (false, e.2.1, ev)
    | .otherExn => (false, e.2.1, ev)

/-- `ModbusClient.write_registers`: same shape as `write_coil` with the
`write_registers` primitive and a list of values, forwarded unvalidated. -/
def ModbusClient.write_registers (s : ClientState) (co : ConnectOutcome)
    (address : Nat) (values : List PyValue) (t : TransportOutcome Unit) :
    Bool × ClientState × List Event :=
  let e := ModbusClient.ensure_connected s co
  if !e.1 then (false, e.2.1, e.2.2)
  else
    let ev := e.2.2 ++ [Event.transportCall (.writeRegisters address values)]
    match t with
    | .ok _ => (true, e.2.1, ev)
    | .errResponse => (false, e.2.1, ev)
    | .connLost => (false, { e.2.1 with connected := false }, ev)
    | .modbusErr => (false, e.2.1, ev)
    | .otherExn => (false, e.2.1, ev)

/-- A tag entry of `DEFAULT_CONFIG["tags"]` in
`src/hmi_app/config/settings.py`: address, Modbus region type, optional
scaling factor and optional display unit. -/
structure Tag where
  name : String
  address : Nat
  tagType : String
  scaling : Option ℚ
  unit : Option String
deriving DecidableEq, Repr

/-- The `temperature` tag of `DEFAULT_CONFIG["tags"]`. -/
def temperatureTag : Tag :=
  { name := "temperature", address := 100, tagType := "holding_register",
    scaling := some (1/10), unit := some "°C" }

/-- The `pressure` tag of `DEFAULT_CONFIG["tags"]`. -/
def pressureTag : Tag :=
  { name := "pressure", address := 101, tagType := "holding_register",
    scaling := some (1/100), unit := some "bar" }

/-- The `motor_running` tag of `DEFAULT_CONFIG["tags"]` (no scaling and no
unit are declared for it). -/
def motorRunningTag : Tag :=
  { name := "motor_running", address := 0, tagType := "coil",
    scaling := none, unit := none }

/-- The `tags` section of `DEFAULT_CONFIG` in
`src/hmi_app/config/settings.py`. -/
def DEFAULT_CONFIG_tags : List Tag :=
  [temperatureTag, pressureTag, motorRunningTag]

/-- Lookup of a tag by name in the default configuration. -/
def resolveTag (tagName : String) : Option Tag :=
  DEFAULT_CONFIG_tags.find? (fun t => t.name == tagName)

/-- The `modbus` section of `DEFAULT_CONFIG` as a client state with the
given `connected` flag: host `127.0.0.1`, port `502`, unit id `1`,
`auto_reconnect` true, `reconnect_delay` 5. -/
def defaultClient (connected : Bool) : ClientState :=
  { host := "127.0.0.1", port := 502, unit_id := 1,
    auto_reconnect := true, reconnect_delay := 5, connected := connected }

/-- The temperature display computation of `MainPage.update_values`:
`temperature = temp_reg[0] * 0.1`. -/
def MainPage.temperature_scaled (raw : Nat) : ℚ := (raw : ℚ) * (1/10)

/-- The pressure display computation of `MainPage.update_values`:
`pressure = pressure_reg[0] * 0.01`. -/
def MainPage.pressure_scaled (raw : Nat) : ℚ := (raw : ℚ) * (1/100)

/-- The displayed values of `MainPage`, semantically: the motor ON/OFF
state shown by `update_motor_display`, and the scaled temperature and
pressure behind the formatted label texts. -/
structure MainPageState where
  motor_display : Bool
  temp_display : ℚ
  pressure_display : ℚ
deriving DecidableEq, Repr

/-- `MainPage.update_values`: returns immediately when the client is not
connected (all widgets unchanged); otherwise reads coil 0, holding
register 100 and holding register 101 in order through the shared client,
updating a widget only when its read returned a value.  Each read gets its
own connect oracle (`ensure_connected` may fire if an earlier read dropped
the connection) and transport oracle.  A successful pymodbus read of
`count=1` always carries at least one element; an empty successful
response (on which the Python would raise `IndexError` at `[0]`) is
modelled by the index default. -/
def MainPage.update_values (p : MainPageState) (s : ClientState)
    (co1 co2 co3 : ConnectOutcome) (t1 : TransportOutcome (List Bool))
    (t2 t3 : TransportOutcome (List Nat)) : MainPageState × ClientState :=
  if !s.connected then (p, s)
  else
    let r1 := ModbusClient.read_coils s co1 0 1 t1
    let p1 := match r1.1 with
      | some bs => { p with motor_display := bs.getD 0 false }
      | none => p
    let r2 := ModbusClient.read_holding_registers r1.2.1 co2 100 1 t2
    let p2 := match r2.1 with
      | some rs => { p1 with temp_display := MainPage.temperature_scaled (rs.getD 0 0) }
      | none => p1
    let r3 := ModbusClient.read_holding_registers r2.2.1 co3 101 1 t3
    let p3 := match r3.1 with
      | some rs => { p2 with pressure_display := MainPage.pressure_scaled (rs.getD 0 0) }
      | none => p2
    (p3, r3.2.1)

/-- The displayed values of `ManualPage`, semantically: the valve
Open/Closed text, the heater ON/OFF state shown by
`update_heater_display`, and the speed slider/label value. -/
structure ManualPageState where
  valve_display : Bool
  heater_display : Bool
  speed_display : Nat
deriving DecidableEq, Repr

/-- `ManualPage.update_values`: returns immediately when the client is not
connected; otherwise reads coil 1 (valve), coil 2 (heater) and holding
register 200 (speed) in order, updating a widget only when its read
returned a value.  Oracles are threaded as in `MainPage.update_values`. -/
def ManualPage.update_values (p : ManualPageState) (s : ClientState)
    (co1 co2 co3 : ConnectOutcome) (t1 t2 : TransportOutcome (List Bool))
    (t3 : TransportOutcome (List Nat)) : ManualPageState × ClientState :=
  if !s.connected then (p, s)
  else
    let r1 := ModbusClient.read_coils s co1 1 1 t1
    let p1 := match r1.1 with
      | some bs => { p with valve_display := bs.getD 0 false }
      | none => p
    let r2 := ModbusClient.read_coils r1.2.1 co2 2 1 t2
    let p2 := match r2.1 with
      | some bs => { p1 with heater_display := bs.getD 0 false }
      | none => p1
    let r3 := ModbusClient.read_holding_registers r2.2.1 co3 200 1 t3
    let p3 := match r3.1 with
      | some rs => { p2 with speed_display := rs.getD 0 0 }
      | none => p2
    (p3, r3.2.1)

/-! Helper lemmas shared by the claim theorems. -/

/-- When `ensure_connected` reports success, the state it leaves behind has
the `connected` flag set. -/
theorem ensure_connected_true_state (s : ClientState) (co : ConnectOutcome)
    (h : (ModbusClient.ensure_connected s co).1 = true) :
    (ModbusClient.ensure_connected s co).2.1.connected = true := by
  unfold ModbusClient.ensure_connected at h ⊢
  split at h <;> simp_all [ModbusClient.connect]

/-- When `ensure_connected` reports failure, the state it leaves behind has
the `connected` flag cleared. -/
theorem ensure_connected_false_state (s : ClientState) (co : ConnectOutcome)
    (h : (ModbusClient.ensure_connected s co).1 = false) :
    (ModbusClient.ensure_connected s co).2.1.connected = false := by
  unfold ModbusClient.ensure_connected at h ⊢
  split at h <;> simp_all [ModbusClient.connect]

/-- When `ensure_connected` succeeds starting from a disconnected client,
its trace contains a connect attempt. -/
theorem connecting_trace_aux (s : ClientState) (co : ConnectOutcome)
    (h : s.connected = false)
    (hok : (ModbusClient.ensure_connected s co).1 = true) :
    Event.connectAttempt ∈ (ModbusClient.ensure_connected s co).2.2 := by
  unfold ModbusClient.ensure_connected at hok ⊢
  split at hok <;> simp_all [ModbusClient.connect]

/-! Claim theorems. -/

/-- C1: a call to `ensure_connected` on a client that is not connected
first sleeps `reconnect_delay` on the calling thread and then makes
exactly one reconnect attempt when `auto_reconnect` is enabled, returning
that attempt's outcome; when `auto_reconnect` is disabled it performs no
event at all and returns the current `connected` flag with the state
unchanged. -/
theorem ensure_connected_single_reconnect (s : ClientState)
    (co : ConnectOutcome) (h : s.connected = false) :
    (s.auto_reconnect = true →
      ModbusClient.ensure_connected s co =
        (co.asBool, { s with connected := co.asBool },
          [Event.sleep s.reconnect_delay, Event.connectAttempt])) ∧
    (s.auto_reconnect = false →
      ModbusClient.ensure_connected s co = (s.connected, s, [])) := by
  constructor <;> intro ha <;>
    simp [ModbusClient.ensure_connected, ModbusClient.connect, h, ha]

/-- Witness for C1: a disconnected default client with auto-reconnect
enabled sleeps 5 seconds, attempts one reconnect and adopts its outcome. -/
theorem ensure_connected_single_reconnect_witness :
    ModbusClient.ensure_connected (defaultClient false) (.ok true) =
      (true, defaultClient true, [Event.sleep 5, Event.connectAttempt]) := by
  have h := (ensure_connected_single_reconnect (defaultClient false)
    (.ok true) rfl).1 rfl
  simpa [defaultClient, ConnectOutcome.asBool] using h

/-- C10: `__init__` performs exactly one connection attempt; afterwards
the `connected` flag equals that attempt's outcome (`false` when the
attempt raised) and all constructor parameters are stored verbatim.
Construction is a total function of its oracle, so it never raises. -/
theorem init_single_connect_attempt (host : String) (port uid : Nat)
    (auto : Bool) (delay : Nat) (co : ConnectOutcome) :
    ModbusClient.init host port uid auto delay co =
      ({ host := host, port := port, unit_id := uid, auto_reconnect := auto,
         reconnect_delay := delay, connected := co.asBool },
       [Event.connectAttempt]) := by
  simp [ModbusClient.init, ModbusClient.connect]

/-- C9 counterexample: calling `connect` while already connected is not a
no-op — the wrapper unconditionally re-attempts the connection and
overwrites the `connected` flag with the new outcome, so a failing
attempt leaves the client disconnected. -/
theorem connect_reattempt_counterexample :
    (defaultClient true).connected = true ∧
    (ModbusClient.connect (defaultClient true) (.ok false)).2.1.connected
      = false ∧
    Event.connectAttempt ∈
      (ModbusClient.connect (defaultClient true) (.ok false)).2.2 := by
  exact ⟨rfl, rfl, List.mem_singleton.mpr rfl⟩

/-- C9 amended: `disconnect` is idempotent (a second `disconnect` changes
nothing, and disconnecting an already-disconnected client leaves the state
unchanged), while `connect` always performs a fresh attempt and stores its
outcome — so connecting while already connected leaves the observable
state unchanged exactly when the underlying attempt reports success. -/
theorem disconnect_idempotent_connect_reattempts (s : ClientState)
    (co : ConnectOutcome) :
    ModbusClient.disconnect (ModbusClient.disconnect s) =
      ModbusClient.disconnect s ∧
    (s.connected = false → ModbusClient.disconnect s = s) ∧
    (ModbusClient.connect s co).2.1 = { s with connected := co.asBool } ∧
    (s.connected = true → (ModbusClient.connect s (.ok true)).2.1 = s) := by
  refine ⟨rfl, ?_, rfl, ?_⟩ <;> intro h <;> cases s <;> simp_all
    [ModbusClient.disconnect, ModbusClient.connect, ConnectOutcome.asBool]

/-- Witness for C9 amended: concrete instances of both idempotence
directions on the default client. -/
theorem disconnect_idempotent_connect_reattempts_witness :
    ModbusClient.disconnect (defaultClient false) = defaultClient false ∧
    (ModbusClient.connect (defaultClient true) (.ok true)).2.1 =
      defaultClient true := by
  exact
    ⟨(disconnect_idempotent_connect_reattempts (defaultClient false)
        (.ok true)).2.1 rfl,
     (disconnect_idempotent_connect_reattempts (defaultClient true)
        (.ok true)).2.2.2 rfl⟩

/-- C8 counterexample: a single successful `connect` call moves the
client's connection state from `Disconnected` directly to `Connected`; the
code has no intermediate `Connecting` state to pass through. -/
theorem no_connecting_state_counterexample :
    (defaultClient false).connState = ConnectionState.Disconnected ∧
    (ModbusClient.connect (defaultClient false) (.ok true)).2.1.connState =
      ConnectionState.Connected := by
  exact ⟨rfl, rfl⟩

/-- C8 amended: the code's connection state is the boolean `connected`
flag, whose spec-level view only ever takes the values `Disconnected` and
`Connected` — it never occupies `Connecting` or `ReconnectWaiting` — and
the flag becomes `true` only as the immediate result of a connect attempt:
every operation that ends connected from a disconnected start performed a
`connectAttempt` within that same call. -/
theorem connection_state_boolean_only (s : ClientState)
    (co : ConnectOutcome) :
    (s.connState ≠ ConnectionState.Connecting ∧
     s.connState ≠ ConnectionState.ReconnectWaiting) ∧
    (s.connected = false → (ModbusClient.connect s co).2.1.connected = true →
      Event.connectAttempt ∈ (ModbusClient.connect s co).2.2) ∧
    (s.connected = false →
      (ModbusClient.ensure_connected s co).2.1.connected = true →
      Event.connectAttempt ∈ (ModbusClient.ensure_connected s co).2.2) ∧
    (∀ a c (t : TransportOutcome (List Nat)), s.connected = false →
      (ModbusClient.read_holding_registers s co a c t).2.1.connected = true →
      Event.connectAttempt ∈
        (ModbusClient.read_holding_registers s co a c t).2.2) ∧
    (∀ a v (t : TransportOutcome Unit), s.connected = false →
      (ModbusClient.write_coil s co a v t).2.1.connected = true →
      Event.connectAttempt ∈ (ModbusClient.write_coil s co a v t).2.2) := by
  refine ⟨⟨?_, ?_⟩, ?_, ?_, ?_, ?_⟩
  · unfold ClientState.connState; split <;> simp
  · unfold ClientState.connState; split <;> simp
  · intro h _; simp [ModbusClient.connect]
  · intro h hc
    unfold ModbusClient.ensure_connected at hc ⊢
    split at hc <;> simp_all [ModbusClient.connect]
  · intro a c t h hc
    unfold ModbusClient.read_holding_registers at hc ⊢
    by_cases he : (ModbusClient.ensure_connected s co).1 = true
    · have := connecting_trace_aux s co h he
      cases t <;> simp_all
    · have hsame := ensure_connected_false_state s co (by simpa using he)
      simp only [he] at hc
      simp_all
  · intro a v t h hc
    unfold ModbusClient.write_coil at hc ⊢
    by_cases he : (ModbusClient.ensure_connected s co).1 = true
    · have := connecting_trace_aux s co h he
      cases t <;> simp_all
    · have hsame := ensure_connected_false_state s co (by simpa using he)
      simp only [he] at hc
      simp_all

/-- Witness for C8 amended: the default client never shows `Connecting`,
and the successful auto-reconnect inside `ensure_connected` records its
connect attempt in the trace. -/
theorem connection_state_boolean_only_witness :
    (defaultClient false).connState ≠ ConnectionState.Connecting ∧
    Event.connectAttempt ∈
      (ModbusClient.ensure_connected (defaultClient false) (.ok true)).2.2 := by
  have h := connection_state_boolean_only (defaultClient false) (.ok true)
  exact ⟨h.1.1, h.2.2.1 rfl rfl⟩

/-- C2: for every read and write operation that reaches the transport
(`ensure_connected` succeeded), a `ConnectionException` clears the
`connected` flag in addition to returning the failure value, while a
`ModbusException` or a device error response returns the failure value but
leaves the flag set, so the connection remains usable. -/
theorem error_kind_connected_flag (s : ClientState) (co : ConnectOutcome)
    (hok : (ModbusClient.ensure_connected s co).1 = true) :
    (∀ a c,
      (ModbusClient.read_coils s co a c .connLost).2.1.connected = false ∧
      (ModbusClient.read_coils s co a c .connLost).1 = none ∧
      (ModbusClient.read_coils s co a c .modbusErr).2.1.connected = true ∧
      (ModbusClient.read_coils s co a c .modbusErr).1 = none ∧
      (ModbusClient.read_coils s co a c .errResponse).2.1.connected = true ∧
      (ModbusClient.read_coils s co a c .errResponse).1 = none) ∧
    (∀ a c,
      (ModbusClient.read_discrete_inputs s co a c .connLost).2.1.connected = false ∧
      (ModbusClient.read_discrete_inputs s co a c .connLost).1 = none ∧
      (ModbusClient.read_discrete_inputs s co a c .modbusErr).2.1.connected = true ∧
      (ModbusClient.read_discrete_inputs s co a c .modbusErr).1 = none ∧
      (ModbusClient.read_discrete_inputs s co a c .errResponse).2.1.connected = true ∧
      (ModbusClient.read_discrete_inputs s co a c .errResponse).1 = none) ∧
    (∀ a c,
      (ModbusClient.read_holding_registers s co a c .connLost).2.1.connected = false ∧
      (ModbusClient.read_holding_registers s co a c .connLost).1 = none ∧
      (ModbusClient.read_holding_registers s co a c .modbusErr).2.1.connected = true ∧
      (ModbusClient.read_holding_registers s co a c .modbusErr).1 = none ∧
      (ModbusClient.read_holding_registers s co a c .errResponse).2.1.connected = true ∧
      (ModbusClient.read_holding_registers s co a c .errResponse).1 = none) ∧
    (∀ a c,
      (ModbusClient.read_input_registers s co a c .connLost).2.1.connected = false ∧
      (ModbusClient.read_input_registers s co a c .connLost).1 = none ∧
      (ModbusClient.read_input_registers s co a c .modbusErr).2.1.connected = true ∧
      (ModbusClient.read_input_registers s co a c .modbusErr).1 = none ∧
      (ModbusClient.read_input_registers s co a c .errResponse).2.1.connected = true ∧
      (ModbusClient.read_input_registers s co a c .errResponse).1 = none) ∧
    (∀ a v,
      (ModbusClient.write_coil s co a v .connLost).2.1.connected = false ∧
      (ModbusClient.write_coil s co a v .connLost).1 = false ∧
      (ModbusClient.write_coil s co a v .modbusErr).2.1.connected = true ∧
      (ModbusClient.write_coil s co a v .modbusErr).1 = false ∧
      (ModbusClient.write_coil s co a v .errResponse).2.1.connected = true ∧
      (ModbusClient.write_coil s co a v .errResponse).1 = false) ∧
    (∀ a v,
      (ModbusClient.write_register s co a v .connLost).2.1.connected = false ∧
      (ModbusClient.write_register s co a v .connLost).1 = false ∧
      (ModbusClient.write_register s co a v .modbusErr).2.1.connected = true ∧
      (ModbusClient.write_register s co a v .modbusErr).1 = false ∧
      (ModbusClient.write_register s co a v .errResponse).2.1.connected = true ∧
      (ModbusClient.write_register s co a v .errResponse).1 = false) ∧
    (∀ a vs,
      (ModbusClient.write_registers s co a vs .connLost).2.1.connected = false ∧
      (ModbusClient.write_registers s co a vs .connLost).1 = false ∧
      (ModbusClient.write_registers s co a vs .modbusErr).2.1.connected = true ∧
      (ModbusClient.write_registers s co a vs .modbusErr).1 = false ∧
      (ModbusClient.write_registers s co a vs .errResponse).2.1.connected = true ∧
      (ModbusClient.write_registers s co a vs .errResponse).1 = false) := by
  have hst := ensure_connected_true_state s co hok
  refine ⟨?_, ?_, ?_, ?_, ?_, ?_, ?_⟩ <;> intro a b <;>
    simp [ModbusClient.read_coils, ModbusClient.read_discrete_inputs,
      ModbusClient.read_holding_registers, ModbusClient.read_input_registers,
      ModbusClient.write_coil, ModbusClient.write_register,
      ModbusClient.write_registers, hok, hst]

/-- Witness for C2: on a connected default client, a connection loss
during a holding-register read clears the flag, while a Modbus protocol
error during a coil write leaves it set. -/
theorem error_kind_connected_flag_witness :
    (ModbusClient.read_holding_registers (defaultClient true) (.ok true)
      100 1 .connLost).2.1.connected = false ∧
    (ModbusClient.write_coil (defaultClient true) (.ok true)
      0 (.bool true) .modbusErr).2.1.connected = true := by
  have h := error_kind_connected_flag (defaultClient true) (.ok true) rfl
  exact ⟨(h.2.2.1 100 1).1, (h.2.2.2.2.1 0 (.bool true)).2.2.1⟩

/-- C3: every failure — `ensure_connected` reporting no connection, a
device error response, or a raised library exception of any kind — is
translated into `none` for the four read operations and `false` for the
three write operations.  The operations are total functions of their
oracles, so no exception escapes to the caller. -/
theorem failure_translation_total (s : ClientState) (co : ConnectOutcome) :
    (∀ a c (t : TransportOutcome (List Bool)),
      (ModbusClient.ensure_connected s co).1 = false ∨ t.isFailure = true →
      (ModbusClient.read_coils s co a c t).1 = none) ∧
    (∀ a c (t : TransportOutcome (List Bool)),
      (ModbusClient.ensure_connected s co).1 = false ∨ t.isFailure = true →
      (ModbusClient.read_discrete_inputs s co a c t).1 = none) ∧
    (∀ a c (t : TransportOutcome (List Nat)),
      (ModbusClient.ensure_connected s co).1 = false ∨ t.isFailure = true →
      (ModbusClient.read_holding_registers s co a c t).1 = none) ∧
    (∀ a c (t : TransportOutcome (List Nat)),
      (ModbusClient.ensure_connected s co).1 = false ∨ t.isFailure = true →
      (ModbusClient.read_input_registers s co a c t).1 = none) ∧
    (∀ a v (t : TransportOutcome Unit),
      (ModbusClient.ensure_connected s co).1 = false ∨ t.isFailure = true →
      (ModbusClient.write_coil s co a v t).1 = false) ∧
    (∀ a v (t : TransportOutcome Unit),
      (ModbusClient.ensure_connected s co).1 = false ∨ t.isFailure = true →
      (ModbusClient.write_register s co a v t).1 = false) ∧
    (∀ a vs (t : TransportOutcome Unit),
      (ModbusClient.ensure_connected s co).1 = false ∨ t.isFailure = true →
      (ModbusClient.write_registers s co a vs t).1 = false) := by
  refine ⟨?_, ?_, ?_, ?_, ?_, ?_, ?_⟩ <;> intro a b t h <;>
    rcases h with h | h <;>
    cases t <;>
    simp_all [ModbusClient.read_coils, ModbusClient.read_discrete_inputs,
      ModbusClient.read_holding_registers, ModbusClient.read_input_registers,
      ModbusClient.write_coil, ModbusClient.write_register,
      ModbusClient.write_registers, TransportOutcome.isFailure] <;>
    (split <;> rfl)

/-- Witness for C3: a read on a disconnected client with auto-reconnect
off yields `none`, and a coil write met by a device error response yields
`false`. -/
theorem failure_translation_total_witness :
    (ModbusClient.read_coils
      { defaultClient false with auto_reconnect := false } (.ok true)
      0 1 (.ok [true])).1 = none ∧
    (ModbusClient.write_coil (defaultClient true) (.ok true)
      0 (.bool true) .errResponse).1 = false := by
  exact
    ⟨(failure_translation_total
        { defaultClient false with auto_reconnect := false }
        (.ok true)).1 0 1 (.ok [true]) (Or.inl rfl),
     (failure_translation_total (defaultClient true) (.ok true)).2.2.2.2.1
       0 (.bool true) .errResponse (Or.inr rfl)⟩

/-- C4 counterexample: a coil write issued while the client is
disconnected but with `auto_reconnect` enabled (the default) makes a
reconnect attempt inside `ensure_connected`; when that attempt succeeds
the transport write is performed and the call reports success — not a
not-connected failure, and not transport-free. -/
theorem write_when_disconnected_counterexample :
    (ModbusClient.write_coil (defaultClient false) (.ok true)
      0 (.bool true) (.ok ())).1 = true ∧
    Event.transportCall (.writeCoil 0 (.bool true)) ∈
      (ModbusClient.write_coil (defaultClient false) (.ok true)
        0 (.bool true) (.ok ())).2.2 := by
  decide

/-- C4 amended: a write issued while the client is not connected returns
`false` with no transport call whenever no reconnect happens —
`auto_reconnect` disabled, or the single reconnect attempt failing —
whereas with `auto_reconnect` enabled a successful reconnect lets the
write proceed to the transport. -/
theorem write_when_disconnected_no_transport (s : ClientState)
    (co : ConnectOutcome) (hdis : s.connected = false)
    (hfail : (ModbusClient.ensure_connected s co).1 = false) :
    (∀ a v (t : TransportOutcome Unit),
      (ModbusClient.write_coil s co a v t).1 = false ∧
      ∀ e ∈ (ModbusClient.write_coil s co a v t).2.2,
        e.isTransportCall = false) ∧
    (∀ a v (t : TransportOutcome Unit),
      (ModbusClient.write_register s co a v t).1 = false ∧
      ∀ e ∈ (ModbusClient.write_register s co a v t).2.2,
        e.isTransportCall = false) ∧
    (∀ a vs (t : TransportOutcome Unit),
      (ModbusClient.write_registers s co a vs t).1 = false ∧
      ∀ e ∈ (ModbusClient.write_registers s co a vs t).2.2,
        e.isTransportCall = false) := by
  have hnc : ¬ s.connected = true := by simp [hdis]
  have htr : ∀ e ∈ (ModbusClient.ensure_connected s co).2.2,
      Event.isTransportCall e = false := by
    unfold ModbusClient.ensure_connected
    split <;> simp_all [ModbusClient.connect, Event.isTransportCall]
  refine ⟨?_, ?_, ?_⟩ <;> intro a b t <;>
    simp_all [ModbusClient.write_coil, ModbusClient.write_register,
      ModbusClient.write_registers, hfail]

/-- Witness for C4 amended: a coil write on a disconnected default client
with auto-reconnect disabled returns `false`, and its trace (the empty
trace) contains no transport call. -/
theorem write_when_disconnected_no_transport_witness :
    (ModbusClient.write_coil
      { defaultClient false with auto_reconnect := false } (.ok true)
      0 (.bool true) (.ok ())).1 = false ∧
    ∀ e ∈ (ModbusClient.write_coil
      { defaultClient false with auto_reconnect := false } (.ok true)
      0 (.bool true) (.ok ())).2.2, e.isTransportCall = false := by
  exact (write_when_disconnected_no_transport
    { defaultClient false with auto_reconnect := false }
    (.ok true) rfl rfl).1 0 (.bool true) (.ok ())

/-- C5 counterexample: the client performs no value validation — a coil
write handed the non-boolean value `3.5` is forwarded to the transport
as-is, contacting it, and the call reports plain success rather than any
type-mismatch error. -/
theorem write_type_mismatch_counterexample :
    (ModbusClient.write_coil (defaultClient true) (.ok true)
      0 (.float (7 / 2)) (.ok ())).1 = true ∧
    Event.transportCall (.writeCoil 0 (.float (7 / 2))) ∈
      (ModbusClient.write_coil (defaultClient true) (.ok true)
        0 (.float (7 / 2)) (.ok ())).2.2 := by
  refine ⟨rfl, ?_⟩
  simp [ModbusClient.write_coil, ModbusClient.ensure_connected,
    defaultClient]

/-- C5 amended: `write_coil` and `write_register` perform no type/region
validation at all: whatever value they are given — boolean or not — is
forwarded unchanged in the transport call whenever the connection check
passes, and the returned boolean depends only on the transport outcome,
with no type-mismatch error path. -/
theorem write_no_type_validation (s : ClientState) (co : ConnectOutcome)
    (hok : (ModbusClient.ensure_connected s co).1 = true) :
    ∀ a v (t : TransportOutcome Unit),
      (ModbusClient.write_coil s co a v t).2.2 =
        (ModbusClient.ensure_connected s co).2.2 ++
          [Event.transportCall (.writeCoil a v)] ∧
      (ModbusClient.write_coil s co a v t).1 = !t.isFailure ∧
      (ModbusClient.write_register s co a v t).2.2 =
        (ModbusClient.ensure_connected s co).2.2 ++
          [Event.transportCall (.writeRegister a v)] ∧
      (ModbusClient.write_register s co a v t).1 = !t.isFailure := by
  intro a v t
  cases t <;>
    simp [ModbusClient.write_coil, ModbusClient.write_register, hok,
      TransportOutcome.isFailure]

/-- Witness for C5 amended: on a connected default client the float value
`3.5` flows into the coil-write transport call. -/
theorem write_no_type_validation_witness :
    (ModbusClient.write_coil (defaultClient true) (.ok true)
      0 (.float (7 / 2)) (.ok ())).2.2 =
      [Event.transportCall (.writeCoil 0 (.float (7 / 2)))] := by
  have h := (write_no_type_validation (defaultClient true) (.ok true) rfl
    0 (.float (7 / 2)) (.ok ())).1
  simpa [ModbusClient.ensure_connected, defaultClient] using h

/-- C6: the holding-register tags of the default configuration
(`temperature` at address 100 with scale 0.1, `pressure` at address 101
with scale 0.01) are displayed by `MainPage.update_values` as the raw
unsigned 16-bit register value times the tag's configured scale; in
particular a raw value of 250 for the temperature tag yields 25.0. -/
theorem holding_register_scaling (tagT tagP : Tag)
    (hT : resolveTag "temperature" = some tagT)
    (hP : resolveTag "pressure" = some tagP)
    (p : MainPageState) (s : ClientState) (hs : s.connected = true)
    (co1 co2 co3 : ConnectOutcome) (bs : List Bool) (rawT rawP : Nat)
    (hrT : rawT < 2 ^ 16) (hrP : rawP < 2 ^ 16) :
    tagT.tagType = "holding_register" ∧ tagT.address = 100 ∧
    tagP.tagType = "holding_register" ∧ tagP.address = 101 ∧
    (MainPage.update_values p s co1 co2 co3 (.ok bs) (.ok [rawT])
      (.ok [rawP])).1.temp_display = (rawT : ℚ) * tagT.scaling.getD 1 ∧
    (MainPage.update_values p s co1 co2 co3 (.ok bs) (.ok [rawT])
      (.ok [rawP])).1.pressure_display = (rawP : ℚ) * tagP.scaling.getD 1 ∧
    MainPage.temperature_scaled 250 = 25 := by
  obtain rfl : tagT = temperatureTag := by
    have h0 : resolveTag "temperature" = some temperatureTag := rfl
    rw [h0] at hT
    exact (Option.some.inj hT).symm
  obtain rfl : tagP = pressureTag := by
    have h0 : resolveTag "pressure" = some pressureTag := rfl
    rw [h0] at hP
    exact (Option.some.inj hP).symm
  refine ⟨rfl, rfl, rfl, rfl, ?_, ?_, by
    norm_num [MainPage.temperature_scaled]⟩ <;>
  simp [MainPage.update_values, ModbusClient.read_coils,
    ModbusClient.read_holding_registers, ModbusClient.ensure_connected, hs,
    MainPage.temperature_scaled, MainPage.pressure_scaled, temperatureTag,
    pressureTag]

/-- Witness for C6: on a connected default client, a raw temperature
register of 250 is displayed as 25 and a raw pressure register of 150 as
1.5. -/
theorem holding_register_scaling_witness :
    (MainPage.update_values ⟨false, 0, 0⟩ (defaultClient true) (.ok true)
      (.ok true) (.ok true) (.ok [true]) (.ok [250])
      (.ok [150])).1.temp_display = 25 ∧
    (MainPage.update_values ⟨false, 0, 0⟩ (defaultClient true) (.ok true)
      (.ok true) (.ok true) (.ok [true]) (.ok [250])
      (.ok [150])).1.pressure_display = 3 / 2 := by
  have h := holding_register_scaling temperatureTag pressureTag
    rfl rfl ⟨false, 0, 0⟩ (defaultClient true) rfl (.ok true) (.ok true)
    (.ok true) [true] 250 150 (by norm_num) (by norm_num)
  refine ⟨?_, ?_⟩
  · rw [h.2.2.2.2.1]; norm_num [temperatureTag]
  · rw [h.2.2.2.2.2.1]; norm_num [pressureTag]

/-- C7: in each periodic update cycle of `MainPage` and `ManualPage`, a
tag whose read fails (returns `None`) leaves that tag's displayed value
exactly as it was — the last-known-good value is never blanked or
replaced — and a cycle started while disconnected changes no widget at
all; a failed read is thus never presented as a fresh value. -/
theorem failed_read_retains_display (p : MainPageState)
    (q : ManualPageState) (s : ClientState) (co1 co2 co3 : ConnectOutcome)
    (t1 : TransportOutcome (List Bool)) (t2 t3 : TransportOutcome (List Nat))
    (u1 u2 : TransportOutcome (List Bool))
    (u3 : TransportOutcome (List Nat)) :
    (s.connected = false →
      MainPage.update_values p s co1 co2 co3 t1 t2 t3 = (p, s) ∧
      ManualPage.update_values q s co1 co2 co3 u1 u2 u3 = (q, s)) ∧
    ((ModbusClient.read_coils s co1 0 1 t1).1 = none →
      (MainPage.update_values p s co1 co2 co3 t1 t2 t3).1.motor_display =
        p.motor_display) ∧
    ((ModbusClient.read_holding_registers
        (ModbusClient.read_coils s co1 0 1 t1).2.1 co2 100 1 t2).1 = none →
      (MainPage.update_values p s co1 co2 co3 t1 t2 t3).1.temp_display =
        p.temp_display) ∧
    ((ModbusClient.read_holding_registers
        (ModbusClient.read_holding_registers
          (ModbusClient.read_coils s co1 0 1 t1).2.1 co2 100 1 t2).2.1
        co3 101 1 t3).1 = none →
      (MainPage.update_values p s co1 co2 co3 t1 t2 t3).1.pressure_display =
        p.pressure_display) ∧
    ((ModbusClient.read_coils s co1 1 1 u1).1 = none →
      (ManualPage.update_values q s co1 co2 co3 u1 u2 u3).1.valve_display =
        q.valve_display) ∧
    ((ModbusClient.read_coils
        (ModbusClient.read_coils s co1 1 1 u1).2.1 co2 2 1 u2).1 = none →
      (ManualPage.update_values q s co1 co2 co3 u1 u2 u3).1.heater_display =
        q.heater_display) ∧
    ((ModbusClient.read_holding_registers
        (ModbusClient.read_coils
          (ModbusClient.read_coils s co1 1 1 u1).2.1 co2 2 1 u2).2.1
        co3 200 1 u3).1 = none →
      (ManualPage.update_values q s co1 co2 co3 u1 u2 u3).1.speed_display =
        q.speed_display) := by
  refine ⟨?_, ?_, ?_, ?_, ?_, ?_, ?_⟩
  · intro h
    constructor <;> simp [MainPage.update_values, ManualPage.update_values, h]
  all_goals intro h
  all_goals cases hc : s.connected
  all_goals simp only [MainPage.update_values, ManualPage.update_values, hc, h]
  all_goals try simp
  all_goals repeat' split
  all_goals try simp

/-- Witness for C7: with the temperature read answered by a device error
response and everything else succeeding, the displayed temperature keeps
its previous value 7 while the others update. -/
theorem failed_read_retains_display_witness :
    (MainPage.update_values ⟨false, 7, 0⟩ (defaultClient true) (.ok true)
      (.ok true) (.ok true) (.ok [true]) .errResponse
      (.ok [150])).1.temp_display = 7 := by
  have h := (failed_read_retains_display ⟨false, 7, 0⟩ ⟨false, false, 0⟩
    (defaultClient true) (.ok true) (.ok true) (.ok true) (.ok [true])
    .errResponse (.ok [150]) (.ok [true]) (.ok [true])
    (.ok [150])).2.2.1 rfl
  simpa using h

end HmiApp
